import Mathlib

/-!
Verification model of the Ghostorshell document-analysis service.

The Python sources are embedded shallowly:

* `file_processor.py` — the text-extraction dispatcher and the four
  format-specific extractors (`extract_text`, `_extract_text_from_txt`,
  `_extract_text_from_pdf`, `_extract_text_from_docx`,
  `_extract_text_from_image`, `validate_file`);
* `database.py` — the two tables (`AnalysisRecord`, `VisitorCredit`) and the
  operations `save_analysis`, `get_analysis_stats`, `delete_old_records`,
  `use_credit`;
* `visitor_tracking.py` — `generate_visitor_id` (SHA-256 based);
* `app.py` — the analyze-document control flow (`analyze_document_tab`).

Python strings are modelled as Lean `String` (lists of Unicode scalar
values), bytes as `List Nat` with each entry < 256, timestamps as `Int`
seconds, and CPython `float` values as exact rationals rounded with an
explicit IEEE-754 binary64 round-to-nearest-even model (`roundDouble`).
-/

/-! ## Python string primitives -/

/-- Whitespace predicate of CPython `str.strip()` restricted to the ASCII
whitespace characters (space, tab, newline, carriage return, vertical tab,
form feed). -/
def pyWs (c : Char) : Bool :=
  c == ' ' || c == '\t' || c == '\n' || c == '\r' || c == '\x0b' || c == '\x0c'

/-- Python `str.strip()` on the underlying character list: drop whitespace
from the front, then from the back. -/
def pyStripList (l : List Char) : List Char :=
  List.rdropWhile pyWs (l.dropWhile pyWs)

/-- Python `str.strip()`. -/
def pyStrip (s : String) : String := ⟨pyStripList s.data⟩

/-- Python `str.lower()` (ASCII case folding, which covers every string the
source lowercases: MIME types and file names). -/
def pyLower (s : String) : String := ⟨s.data.map Char.toLower⟩

/-- Python `str.endswith(suffix)`. -/
def pyEndsWith (s suffix : String) : Bool := suffix.data.isSuffixOf s.data

/-- Python `str.startswith(pre)`. -/
def pyStartsWith (s pre : String) : Bool := pre.data.isPrefixOf s.data

/-- A string has no leading and no trailing whitespace. -/
def noEdgeWs (s : String) : Prop :=
  (∀ c, s.data.head? = some c → pyWs c = false) ∧
  (∀ c, s.data.getLast? = some c → pyWs c = false)

/-! ## Byte decoding (`_extract_text_from_txt`, file_processor.py lines 44-62)

Bytes are `List Nat` with entries < 256.  `utf8Decode` is strict CPython
`bytes.decode('utf-8')`: it rejects continuation errors, overlong forms,
surrogates and code points above U+10FFFF.  `latin1Decode` is
`bytes.decode('latin-1')`, which maps byte `b` to code point `b` and is
total.  `utf8DecodeIgnoring` is `bytes.decode('utf-8', errors='ignore')`,
which skips undecodable bytes. -/

/-- Test for a UTF-8 continuation byte (10xxxxxx). -/
def utf8Cont (b : Nat) : Bool := 128 ≤ b && b < 192

/-- Strict UTF-8 decoding to a list of code points; `none` on any invalid
sequence. -/
def utf8Decode : List Nat → Option (List Nat)
  | [] => some []
  | b :: rest =>
    if b < 128 then (utf8Decode rest).map (b :: ·)
    else if b < 192 then none
    else if b < 224 then
      match rest with
      | c1 :: rest2 =>
        if utf8Cont c1 then
          let cp := (b - 192) * 64 + (c1 - 128)
          if 128 ≤ cp then (utf8Decode rest2).map (cp :: ·) else none
        else none
      | [] => none
    else if b < 240 then
      match rest with
      | c1 :: c2 :: rest2 =>
        if utf8Cont c1 && utf8Cont c2 then
          let cp := (b - 224) * 4096 + (c1 - 128) * 64 + (c2 - 128)
          if 2048 ≤ cp && ¬(55296 ≤ cp && cp ≤ 57343) then
            (utf8Decode rest2).map (cp :: ·)
          else none
        else none
      | _ => none
    else if b < 248 then
      match rest with
      | c1 :: c2 :: c3 :: rest2 =>
        if utf8Cont c1 && utf8Cont c2 && utf8Cont c3 then
          let cp := (b - 240) * 262144 + (c1 - 128) * 4096 + (c2 - 128) * 64 + (c3 - 128)
          if 65536 ≤ cp && cp ≤ 1114111 then
            (utf8Decode rest2).map (cp :: ·)
          else none
        else none
      | _ => none
    else none

/-- Worker for lossy UTF-8 decoding; the fuel argument bounds the number of
bytes consumed (one or more per step), so starting it at the input length
never cuts decoding short. -/
def utf8DecodeIgnoringAux : Nat → List Nat → List Nat
  | 0, _ => []
  | _, [] => []
  | fuel+1, b :: rest =>
    if b < 128 then b :: utf8DecodeIgnoringAux fuel rest
    else if b < 192 then utf8DecodeIgnoringAux fuel rest
    else if b < 224 then
      match rest with
      | c1 :: rest2 =>
        if utf8Cont c1 then
          let cp := (b - 192) * 64 + (c1 - 128)
          if 128 ≤ cp then cp :: utf8DecodeIgnoringAux fuel rest2
          else utf8DecodeIgnoringAux fuel rest2
        else utf8DecodeIgnoringAux fuel rest
      | [] => []
    else if b < 240 then
      match rest with
      | c1 :: c2 :: rest2 =>
        if utf8Cont c1 && utf8Cont c2 then
          let cp := (b - 224) * 4096 + (c1 - 128) * 64 + (c2 - 128)
          if 2048 ≤ cp && ¬(55296 ≤ cp && cp ≤ 57343) then
            cp :: utf8DecodeIgnoringAux fuel rest2
          else utf8DecodeIgnoringAux fuel rest2
        else utf8DecodeIgnoringAux fuel rest
      | _ => utf8DecodeIgnoringAux fuel rest
    else if b < 248 then
      match rest with
      | c1 :: c2 :: c3 :: rest2 =>
        if utf8Cont c1 && utf8Cont c2 && utf8Cont c3 then
          let cp := (b - 240) * 262144 + (c1 - 128) * 4096 + (c2 - 128) * 64 + (c3 - 128)
          if 65536 ≤ cp && cp ≤ 1114111 then
            cp :: utf8DecodeIgnoringAux fuel rest2
          else utf8DecodeIgnoringAux fuel rest2
        else utf8DecodeIgnoringAux fuel rest
      | _ => utf8DecodeIgnoringAux fuel rest
    else utf8DecodeIgnoringAux fuel rest

/-- Lossy UTF-8 decoding with `errors='ignore'`: undecodable bytes are
skipped and decoding continues. -/
def utf8DecodeIgnoring (l : List Nat) : List Nat :=
  utf8DecodeIgnoringAux l.length l

/-- Turn a list of Unicode code points into a `String`.  All producers in
this file emit scalar values, for which `Char.ofNat` is exact. -/
def codepointsToString (l : List Nat) : String := ⟨l.map Char.ofNat⟩

/-- Latin-1 decoding: byte `b` becomes code point `b`; total on all byte
sequences, so in the source the try of `content.decode('latin-1')` always
succeeds. -/
def latin1Decode (content : List Nat) : Except String String :=
  .ok (codepointsToString content)

/-- Model of `FileProcessor._extract_text_from_txt`: try strict UTF-8, on
failure try Latin-1, and as a last resort decode UTF-8 ignoring errors.
Returns `none` never; the `Option` mirrors the possibility of an exception
escaping the decoder chain. -/
def extract_text_from_txt (content : List Nat) : Option String :=
  match utf8Decode content with
  | some cps => some (codepointsToString cps)
  | none =>
    match latin1Decode content with
    | .ok s => some s
    | .error _ => some (codepointsToString (utf8DecodeIgnoring content))

/-! ## PDF extraction (`_extract_text_from_pdf`, file_processor.py lines 64-104)

The two library calls are oracles: pdfplumber yields the list of per-page
texts extracted before an optional exception (`plumberPages`,
`plumberErr`), PyPDF2 yields either an exception or its list of per-page
texts (`pypdf`).  A page whose text is `None` in Python is modelled as the
empty string: both are falsy under `if page_text:`. -/

/-- The page-accumulation loop shared by both methods: append each truthy
page text followed by a newline onto the accumulator. -/
def concatPages (init : String) (pages : List String) : String :=
  pages.foldl (fun acc p => if p = "" then acc else acc ++ p ++ "\n") init

/-- Method 2 of `_extract_text_from_pdf` (PyPDF2), entered with the text
accumulated so far; its exceptions and its own no-text failure are wrapped
by the enclosing handlers of the source. -/
def pdfMethod2 (carried : String) (pypdf : Except String (List String)) :
    Except String String :=
  match pypdf with
  | .error e =>
      .error ("PDF processing error: Both PDF extraction methods failed: " ++ e)
  | .ok pages =>
      let t := concatPages carried pages
      if pyStrip t = "" then
        .error ("PDF processing error: Both PDF extraction methods failed: " ++
          "No text could be extracted from PDF")
      else .ok (pyStrip t)

/-- Model of `FileProcessor._extract_text_from_pdf`.  If pdfplumber raised
(`plumberErr = some e`) the pages it already contributed remain in the
accumulator and method 2 runs; if it completed and the accumulator strips
to nonempty, that stripped text is returned; otherwise method 2 runs on
top of the accumulator. -/
def extract_text_from_pdf (plumberPages : List String) (plumberErr : Option String)
    (pypdf : Except String (List String)) : Except String String :=
  let t := concatPages "" plumberPages
  match plumberErr with
  | some _ => pdfMethod2 t pypdf
  | none => if pyStrip t = "" then pdfMethod2 t pypdf else .ok (pyStrip t)

/-! ## Word and image extraction (file_processor.py lines 106-162)

The python-docx and pytesseract calls are oracles: the document is given as
its paragraph texts and its tables (rows of cell texts), the OCR as the two
pass outputs. -/

/-- Model of `FileProcessor._extract_text_from_docx`: collect the stripped
nonempty paragraph texts, then the stripped nonempty table-cell texts in
table/row/cell order, join with newlines, and fail when the result strips
to empty. -/
def extract_text_from_docx (paragraphs : List String)
    (tables : List (List (List String))) : Except String String :=
  let paraParts := (paragraphs.map pyStrip).filter (fun p => p ≠ "")
  let cellTexts := (tables.map List.flatten).flatten
  let cellParts := (cellTexts.map pyStrip).filter (fun p => p ≠ "")
  let fullText := String.intercalate "\n" (paraParts ++ cellParts)
  if pyStrip fullText = "" then
    .error "Word document processing failed: No text content found in Word document"
  else .ok (pyStrip fullText)

/-- Model of `FileProcessor._extract_text_from_image`: use the first OCR
pass if it strips to nonempty, otherwise the second; fail when that also
strips to empty. -/
def extract_text_from_image (pass1 pass2 : String) : Except String String :=
  let extracted := if pyStrip pass1 = "" then pass2 else pass1
  if pyStrip extracted = "" then
    .error ("Image text extraction failed: No readable text found in image. " ++
      "Please ensure the image contains clear, readable text.")
  else .ok (pyStrip extracted)

/-! ## The extraction dispatcher (`extract_text`, file_processor.py lines 16-42) -/

/-- The four format-specific extractors the dispatcher can route to. -/
inductive Route where
  | txt
  | pdf
  | docx
  | image
  deriving DecidableEq, Repr

/-- Docx MIME constant from the source. -/
def docxMime : String :=
  "application/vnd.openxmlformats-officedocument.wordprocessingml.document"

/-- Model of the routing decision of `FileProcessor.extract_text`: the
lowered declared MIME type and lowered file name are tested branch by
branch, each branch accepting on its MIME test or on its extension test. -/
def extract_text_route (fileType fileName : String) : Except String Route :=
  let ft := pyLower fileType
  let fn := pyLower fileName
  if ft == "text/plain" || pyEndsWith fn ".txt" then .ok .txt
  else if ft == "application/pdf" || pyEndsWith fn ".pdf" then .ok .pdf
  else if ft == docxMime || pyEndsWith fn ".docx" then .ok .docx
  else if pyStartsWith ft "image/" || pyEndsWith fn ".jpg" ||
      pyEndsWith fn ".jpeg" || pyEndsWith fn ".png" then .ok .image
  else .error ("Unsupported file type: " ++ ft)

/-- The route a lowered MIME type alone selects, if any. -/
def mimeRouteOf (ft : String) : Option Route :=
  if ft == "text/plain" then some .txt
  else if ft == "application/pdf" then some .pdf
  else if ft == docxMime then some .docx
  else if pyStartsWith ft "image/" then some .image
  else none

/-- The route a lowered file name's extension alone selects, if any, testing
extensions in the branch order of the source. -/
def extRouteOf (fn : String) : Option Route :=
  if pyEndsWith fn ".txt" then some .txt
  else if pyEndsWith fn ".pdf" then some .pdf
  else if pyEndsWith fn ".docx" then some .docx
  else if pyEndsWith fn ".jpg" || pyEndsWith fn ".jpeg" || pyEndsWith fn ".png" then
    some .image
  else none

/-- Dispatch rule as the specification words it: match the declared MIME
type first, consult the extension only when the MIME type selects nothing. -/
def mimeFirstRoute (fileType fileName : String) : Except String Route :=
  match mimeRouteOf (pyLower fileType) with
  | some r => .ok r
  | none =>
    match extRouteOf (pyLower fileName) with
    | some r => .ok r
    | none => .error ("Unsupported file type: " ++ pyLower fileType)

/-! ## Exact model of CPython float (IEEE-754 binary64) arithmetic

`database.py` and `file_processor.py` compute percentages, averages and
size thresholds with Python floats.  A float value is represented exactly
as an integer fraction (`Dy`), and each arithmetic step rounds its exact
rational result to 53 significant bits, to nearest with ties to even,
exactly as binary64 does for the magnitudes occurring here (no overflow or
subnormals). -/

/-- An integer fraction; the denominator is kept positive by every
constructor used below. -/
structure Dy where
  num : Int
  den : Int
  deriving DecidableEq, Repr

/-- Embed an integer. -/
def dyOfInt (n : Int) : Dy := ⟨n, 1⟩

/-- Exact order comparison by cross-multiplication (positive denominators). -/
def dyLt (a b : Dy) : Bool := a.num * b.den < b.num * a.den

/-- Exact non-strict comparison by cross-multiplication. -/
def dyLe (a b : Dy) : Bool := a.num * b.den ≤ b.num * a.den

/-- Exact equality test by cross-multiplication. -/
def dyEqv (a b : Dy) : Bool := a.num * b.den == b.num * a.den

/-- Exact sum. -/
def dyAdd (a b : Dy) : Dy := ⟨a.num * b.den + b.num * a.den, a.den * b.den⟩

/-- Exact product. -/
def dyMul (a b : Dy) : Dy := ⟨a.num * b.num, a.den * b.den⟩

/-- Exact quotient, keeping the denominator positive. -/
def dyDiv (a b : Dy) : Dy :=
  if b.num < 0 then ⟨-(a.num * b.den), -(a.den * b.num)⟩ else ⟨a.num * b.den, a.den * b.num⟩

/-- Number of binary digits of a natural number, with explicit fuel. -/
def bitsAux : Nat → Nat → Nat
  | 0, _ => 0
  | fuel+1, m => if m = 0 then 0 else bitsAux fuel (m / 2) + 1

/-- Number of binary digits of a natural number. -/
def bits (n : Nat) : Nat := bitsAux n n

/-- The fraction 2 ^ e for an integer exponent. -/
def dyPow2 (e : Int) : Dy :=
  if 0 ≤ e then ⟨2 ^ e.toNat, 1⟩ else ⟨1, 2 ^ (-e).toNat⟩

/-- Floor of the base-2 logarithm of a positive fraction. -/
def ilog2 (x : Dy) : Int :=
  let e0 : Int := (bits x.num.natAbs : Int) - (bits x.den.natAbs : Int)
  if dyLe (dyPow2 e0) x then e0 else e0 - 1

/-- Floor of a fraction with positive denominator. -/
def dyFloor (a : Dy) : Int := a.num.fdiv a.den

/-- Round an exact fraction to the nearest IEEE-754 binary64 value
(53 significant bits, ties to even; exponent range unbounded, which agrees
with binary64 on all magnitudes occurring in this development). -/
def roundDouble (x : Dy) : Dy :=
  if x.num = 0 then ⟨0, 1⟩
  else
    let a : Dy := ⟨x.num.natAbs, x.den.natAbs⟩
    let e : Int := ilog2 a - 52
    let m : Dy := dyDiv a (dyPow2 e)
    let n : Int := dyFloor m
    let r : Dy := dyAdd m ⟨-n, 1⟩
    let n' : Int :=
      if dyLt r ⟨1, 2⟩ then n
      else if dyLt ⟨1, 2⟩ r then n + 1
      else if n % 2 = 0 then n else n + 1
    let v : Dy := dyMul (dyOfInt n') (dyPow2 e)
    if x.num * x.den < 0 then ⟨-v.num, v.den⟩ else v

/-- Binary64 division: round the exact quotient. -/
def fdiv (x y : Dy) : Dy := roundDouble (dyDiv x y)

/-- Binary64 multiplication: round the exact product. -/
def fmul (x y : Dy) : Dy := roundDouble (dyMul x y)

/-- Binary64 addition: round the exact sum. -/
def fadd (x y : Dy) : Dy := roundDouble (dyAdd x y)

/-- The rational value of a fraction. -/
def dyToRat (d : Dy) : ℚ := (d.num : ℚ) / (d.den : ℚ)

/-! ## File validation (`validate_file`, file_processor.py lines 164-201) -/

/-- An uploaded file as Streamlit presents it: declared name, declared MIME
type, size in bytes. -/
structure UploadedFile where
  name : String
  type : String
  size : Nat
  deriving Repr

/-- MIME types `validate_file` accepts. -/
def allowedTypes : List String :=
  ["text/plain", "application/pdf", docxMime, "image/jpeg", "image/jpg", "image/png"]

/-- Extensions `validate_file` accepts. -/
def allowedExtensions : List String :=
  [".txt", ".pdf", ".docx", ".jpg", ".jpeg", ".png"]

/-- Model of `FileProcessor.validate_file`: reject a file whose size in
megabytes (float division by 1024*1024) exceeds the cap, then reject a
file matching neither an allowed MIME type nor an allowed extension. -/
def validate_file (f : UploadedFile) (maxSizeMb : Int) : Except String Bool :=
  let fileSizeMb := fdiv (dyOfInt f.size) (dyOfInt 1048576)
  if dyLt (dyOfInt maxSizeMb) fileSizeMb then
    .error "File too large"
  else
    let typeValid := allowedTypes.contains (pyLower f.type)
    let extValid := allowedExtensions.any (fun ext => pyEndsWith (pyLower f.name) ext)
    if ¬(typeValid || extValid) then
      .error ("Unsupported file type: " ++ f.type)
    else .ok true

/-! ## The data model and persistence layer (database.py)

Rows are records in Lean; a table is the list of its rows in insertion
order.  `DateTime` values are `Int` seconds.  SQLAlchemy `Float` columns
hold binary64 values, represented exactly as `Dy` fractions. -/

/-- A row of the `analysis_records` table. -/
structure AnalysisRecord where
  id : Nat
  filename : String
  file_type : String
  file_size : Nat
  text_length : Nat
  ai_probability : Dy
  confidence : Dy
  reasoning : Option String
  created_at : Int
  ip_address : Option String
  visitor_id : Option String
  deriving DecidableEq, Repr

/-- A row of the `visitor_credits` table. -/
structure VisitorCredit where
  id : Nat
  visitor_id : String
  ip_address : String
  credits_remaining : Int
  total_purchased : Int
  last_activity : Int
  created_at : Int
  stripe_payment_id : Option String
  deriving DecidableEq, Repr

/-- Model of `DatabaseManager.save_analysis`: insert a new row carrying the
given fields and the generated key, and return that key. -/
def save_analysis (now : Int) (nextId : Nat) (filename file_type : String)
    (file_size text_length : Nat) (ai_probability confidence : Dy)
    (reasoning : Option String) (ip_address visitor_id : Option String)
    (records : List AnalysisRecord) : Nat × List AnalysisRecord :=
  let record : AnalysisRecord :=
    { id := nextId, filename := filename, file_type := file_type,
      file_size := file_size, text_length := text_length,
      ai_probability := ai_probability, confidence := confidence,
      reasoning := reasoning, created_at := now,
      ip_address := ip_address, visitor_id := visitor_id }
  (nextId, records ++ [record])

/-- Model of `DatabaseManager.delete_old_records`: delete every row whose
`created_at` is strictly before now minus `daysOld` days (86400 seconds
each) and return how many were deleted. -/
def delete_old_records (now daysOld : Int) (records : List AnalysisRecord) :
    Nat × List AnalysisRecord :=
  let cutoff := now - daysOld * 86400
  (records.countP (fun r => r.created_at < cutoff),
   records.filter (fun r => ¬(r.created_at < cutoff)))

/-- Insertion-ordered histogram update used for the file-type distribution:
`dict.get(key, 0) + 1` with first-insertion order. -/
def bumpCount (k : String) : List (String × Nat) → List (String × Nat)
  | [] => [(k, 1)]
  | (k', n) :: rest => if k' == k then (k', n + 1) :: rest else (k', n) :: bumpCount k rest

/-- The dictionary `get_analysis_stats` returns. -/
structure AnalysisStats where
  total_analyses : Nat
  ai_detected : Nat
  human_detected : Nat
  ai_percentage : Dy
  human_percentage : Dy
  average_confidence : Dy
  file_type_distribution : List (String × Nat)
  deriving Repr

/-- Model of `DatabaseManager.get_analysis_stats`: row counts are exact
integers; the two percentages and the average confidence are computed in
binary64 arithmetic, guarded to 0 when no rows exist. -/
def get_analysis_stats (records : List AnalysisRecord) : AnalysisStats :=
  let total := records.length
  let ai := records.countP (fun r => dyLe ⟨1, 2⟩ r.ai_probability)
  let human := total - ai
  let confs := records.map (fun r => r.confidence)
  { total_analyses := total
    ai_detected := ai
    human_detected := human
    ai_percentage :=
      if 0 < total then fmul (fdiv (dyOfInt ai) (dyOfInt total)) (dyOfInt 100)
      else dyOfInt 0
    human_percentage :=
      if 0 < total then fmul (fdiv (dyOfInt human) (dyOfInt total)) (dyOfInt 100)
      else dyOfInt 0
    average_confidence :=
      if confs.isEmpty then dyOfInt 0
      else fdiv (confs.foldl fadd (dyOfInt 0)) (dyOfInt confs.length)
    file_type_distribution :=
      (records.map (fun r => r.file_type)).foldl (fun acc k => bumpCount k acc) [] }

/-- Replace the first element satisfying the test, leaving the rest alone;
this is how a mutation through a SQLAlchemy `first()` result acts on the
row list. -/
def updateFirst (p : α → Bool) (f : α → α) : List α → List α
  | [] => []
  | x :: xs => if p x then f x :: xs else x :: updateFirst p f xs

/-- Model of `DatabaseManager.use_credit`: look up the first row of the
given visitor; when it exists and has credits left, decrement the credit
count, stamp the activity time and report success; otherwise report
failure with the table untouched. -/
def use_credit (now : Int) (visitors : List VisitorCredit) (vid : String) :
    Bool × List VisitorCredit :=
  match visitors.find? (fun v => v.visitor_id == vid) with
  | some v =>
      if 0 < v.credits_remaining then
        (true,
         updateFirst (fun w => w.visitor_id == vid)
           (fun w => { w with credits_remaining := w.credits_remaining - 1,
                              last_activity := now })
           visitors)
      else (false, visitors)
  | none => (false, visitors)

/-! ## Visitor identity (`generate_visitor_id`, visitor_tracking.py lines 56-71)

SHA-256 as `hashlib.sha256` computes it, over the UTF-8 encoding of the
combined string. -/

/-- Reduce to a 32-bit word. -/
def w32 (n : Nat) : Nat := n % 4294967296

/-- Rotate a 32-bit word right by `k`. -/
def rotr (k x : Nat) : Nat := ((x >>> k) ||| (x <<< (32 - k))) % 4294967296

/-- SHA-256 choice function. -/
def shaCh (x y z : Nat) : Nat := (x &&& y) ^^^ ((4294967295 ^^^ x) &&& z)

/-- SHA-256 majority function. -/
def shaMaj (x y z : Nat) : Nat := (x &&& y) ^^^ (x &&& z) ^^^ (y &&& z)

/-- SHA-256 big sigma 0. -/
def bigSigma0 (x : Nat) : Nat := rotr 2 x ^^^ rotr 13 x ^^^ rotr 22 x

/-- SHA-256 big sigma 1. -/
def bigSigma1 (x : Nat) : Nat := rotr 6 x ^^^ rotr 11 x ^^^ rotr 25 x

/-- SHA-256 small sigma 0. -/
def smallSigma0 (x : Nat) : Nat := rotr 7 x ^^^ rotr 18 x ^^^ (x >>> 3)

/-- SHA-256 small sigma 1. -/
def smallSigma1 (x : Nat) : Nat := rotr 17 x ^^^ rotr 19 x ^^^ (x >>> 10)

/-- The 64 SHA-256 round constants. -/
def shaK : List Nat :=
  [1116352408, 1899447441, 3049323471, 3921009573, 961987163, 1508970993,
   2453635748, 2870763221, 3624381080, 310598401, 607225278, 1426881987,
   1925078388, 2162078206, 2614888103, 3248222580, 3835390401, 4022224774,
   264347078, 604807628, 770255983, 1249150122, 1555081692, 1996064986,
   2554220882, 2821834349, 2952996808, 3210313671, 3336571891, 3584528711,
   113926993, 338241895, 666307205, 773529912, 1294757372, 1396182291,
   1695183700, 1986661051, 2177026350, 2456956037, 2730485921, 2820302411,
   3259730800, 3345764771, 3516065817, 3600352804, 4094571909, 275423344,
   430227734, 506948616, 659060556, 883997877, 958139571, 1322822218,
   1537002063, 1747873779, 1955562222, 2024104815, 2227730452, 2361852424,
   2428436474, 2756734187, 3204031479, 3329325298]

/-- The SHA-256 working state. -/
structure Sha256State where
  a : Nat
  b : Nat
  c : Nat
  d : Nat
  e : Nat
  f : Nat
  g : Nat
  h : Nat
  deriving Repr

/-- The SHA-256 initial state. -/
def shaH0 : Sha256State :=
  ⟨1779033703, 3144134277, 1013904242, 2773480762,
   1359893119, 2600822924, 528734635, 1541459225⟩

/-- Big-endian bytes of a number, fixed width. -/
def toBytesBE : Nat → Nat → List Nat
  | 0, _ => []
  | k+1, n => toBytesBE k (n / 256) ++ [n % 256]

/-- SHA-256 message padding: a 0x80 byte, zeros to 56 mod 64, then the
bit length in 8 big-endian bytes. -/
def sha256Pad (msg : List Nat) : List Nat :=
  msg ++ [128] ++ List.replicate ((119 - msg.length % 64) % 64) 0 ++
    toBytesBE 8 (8 * msg.length)

/-- Split a byte list into 64-byte blocks (fuel-driven). -/
def chunksAux : Nat → List Nat → List (List Nat)
  | 0, _ => []
  | _, [] => []
  | fuel+1, l => l.take 64 :: chunksAux fuel (l.drop 64)

/-- Split a byte list into 64-byte blocks. -/
def chunks64 (l : List Nat) : List (List Nat) := chunksAux l.length l

/-- Group bytes big-endian into 32-bit words. -/
def bytesToWords : List Nat → List Nat
  | b0 :: b1 :: b2 :: b3 :: rest =>
      (b0 * 16777216 + b1 * 65536 + b2 * 256 + b3) :: bytesToWords rest
  | _ => []

/-- Extend the 16 block words by `n` schedule words. -/
def extendWords (ws : List Nat) : Nat → List Nat
  | 0 => ws
  | n+1 =>
      let prev := extendWords ws n
      let i := prev.length
      prev ++ [w32 (smallSigma1 (prev.getD (i - 2) 0) + prev.getD (i - 7) 0 +
        smallSigma0 (prev.getD (i - 15) 0) + prev.getD (i - 16) 0)]

/-- The 64-word message schedule of a block. -/
def messageSchedule (block : List Nat) : List Nat :=
  extendWords (bytesToWords block) 48

/-- One SHA-256 round. -/
def compressWord (st : Sha256State) (k w : Nat) : Sha256State :=
  let t1 := w32 (st.h + bigSigma1 st.e + shaCh st.e st.f st.g + k + w)
  let t2 := w32 (bigSigma0 st.a + shaMaj st.a st.b st.c)
  ⟨w32 (t1 + t2), st.a, st.b, st.c, w32 (st.d + t1), st.e, st.f, st.g⟩

/-- Compress one 64-byte block into the running state. -/
def compressBlock (st : Sha256State) (block : List Nat) : Sha256State :=
  let ws := messageSchedule block
  let fin := (shaK.zip ws).foldl (fun s kw => compressWord s kw.1 kw.2) st
  ⟨w32 (st.a + fin.a), w32 (st.b + fin.b), w32 (st.c + fin.c), w32 (st.d + fin.d),
   w32 (st.e + fin.e), w32 (st.f + fin.f), w32 (st.g + fin.g), w32 (st.h + fin.h)⟩

/-- SHA-256 digest (32 bytes) of a byte message. -/
def sha256 (msg : List Nat) : List Nat :=
  let st := (chunks64 (sha256Pad msg)).foldl compressBlock shaH0
  ([st.a, st.b, st.c, st.d, st.e, st.f, st.g, st.h]).flatMap (toBytesBE 4)

/-- Lowercase hexadecimal digit. -/
def hexChar (n : Nat) : Char := "0123456789abcdef".data.getD n '0'

/-- Lowercase hexadecimal rendering of a byte list, as `hexdigest()`. -/
def hexDigest (bytes : List Nat) : String :=
  ⟨bytes.flatMap (fun b => [hexChar (b / 16), hexChar (b % 16)])⟩

/-- UTF-8 encoding of one scalar value. -/
def utf8EncodeChar (c : Char) : List Nat :=
  let n := c.toNat
  if n < 128 then [n]
  else if n < 2048 then [192 + n / 64, 128 + n % 64]
  else if n < 65536 then [224 + n / 4096, 128 + (n / 64) % 64, 128 + n % 64]
  else [240 + n / 262144, 128 + (n / 4096) % 64, 128 + (n / 64) % 64, 128 + n % 64]

/-- UTF-8 encoding of a string (`str.encode('utf-8')`; Lean strings carry
only scalar values, on which the encoder is total). -/
def utf8Encode (s : String) : List Nat := s.data.flatMap utf8EncodeChar

/-- Model of `generate_visitor_id`: the first 32 hexadecimal characters of
the SHA-256 digest of `ip_address + "|" + browser_fingerprint`.  The `try`
body never raises on scalar-value strings, so the IP-only fallback branch
of the source is unreachable here. -/
def generate_visitor_id (ip_address browser_fingerprint : String) : String :=
  ⟨((hexDigest (sha256 (utf8Encode (ip_address ++ "|" ++ browser_fingerprint)))).data.take 32)⟩

/-! ## The analyze-document control flow (`analyze_document_tab`, app.py lines 235-281)

The uploaded file, the result of `extract_text` and the result of
`detect_ai_content` are inputs; the flow decides what the user sees and
whether `save_analysis` runs.  A database failure during the save is
surfaced as a warning in the source and is not injected here: the save
model always succeeds. -/

/-- The classifier's output fields consumed by the flow. -/
structure DetectionResult where
  ai_probability : Dy
  confidence : Dy
  reasoning : String
  deriving Repr

/-- What the analyze flow ends with. -/
inductive FlowOutcome where
  | extractionFailed (msg : String)
  | insufficientText
  | classificationFailed (msg : String)
  | analyzedDemo
  | analyzedSaved (recordId : Nat)
  deriving DecidableEq, Repr

/-- Python `name.split('.')` on the character list. -/
def splitOnDot (l : List Char) : List (List Char) :=
  l.foldr
    (fun c acc =>
      if c = '.' then [] :: acc
      else
        match acc with
        | h :: t => (c :: h) :: t
        | [] => [[c]])
    [[]]

/-- File extension as the flow derives it: `name.split('.')[-1].lower()`. -/
def fileExtension (name : String) : String :=
  pyLower ⟨(splitOnDot name.data).getLastD []⟩

/-- Model of the analyze-document flow: halt on extraction failure, reject
extracted text stripping below 10 characters, halt on classification
failure, and persist through `save_analysis` only outside demo mode. -/
def analyze_document_flow (demoMode : Bool) (now : Int) (nextId : Nat)
    (f : UploadedFile) (extractResult : Except String String)
    (detection : Except String DetectionResult)
    (records : List AnalysisRecord) : FlowOutcome × List AnalysisRecord :=
  match extractResult with
  | .error e => (.extractionFailed e, records)
  | .ok text =>
    if (pyStrip text).data.length < 10 then (.insufficientText, records)
    else
      match detection with
      | .error e => (.classificationFailed e, records)
      | .ok d =>
        if demoMode then (.analyzedDemo, records)
        else
          let saved := save_analysis now nextId f.name (fileExtension f.name)
            f.size text.data.length d.ai_probability d.confidence
            (some d.reasoning) none none records
          (.analyzedSaved saved.1, saved.2)

/-! ## Helper definitions for the statements -/

/-- Success test for an `Except` value. -/
def exceptOk {ε α : Type} : Except ε α → Bool
  | .ok _ => true
  | .error _ => false

/-- AI percentage as the specification words it, in exact rational
arithmetic: detected count over total, times 100. -/
def specAiPercentageExact (records : List AnalysisRecord) : ℚ :=
  ((records.countP (fun r => dyLe ⟨1, 2⟩ r.ai_probability) : ℕ) : ℚ) * 100 /
    (records.length : ℚ)

/-- Human percentage as the specification words it, in exact rational
arithmetic. -/
def specHumanPercentageExact (records : List AnalysisRecord) : ℚ :=
  (((records.length - records.countP (fun r => dyLe ⟨1, 2⟩ r.ai_probability) : ℕ)) : ℚ) * 100 /
    (records.length : ℚ)

/-! ## Concrete sample data for witnesses and counterexamples -/

/-- A visitor row with credits left. -/
def visitorWithCredits : VisitorCredit :=
  { id := 1, visitor_id := "aaaa", ip_address := "10.0.0.1",
    credits_remaining := 2, total_purchased := 5,
    last_activity := 100, created_at := 50, stripe_payment_id := none }

/-- A visitor row with no credits left. -/
def visitorNoCredits : VisitorCredit :=
  { id := 2, visitor_id := "bbbb", ip_address := "10.0.0.2",
    credits_remaining := 0, total_purchased := 0,
    last_activity := 100, created_at := 60, stripe_payment_id := none }

/-- A small visitor table. -/
def visitorsW : List VisitorCredit := [visitorWithCredits, visitorNoCredits]

/-- Construct an analysis row with the fields the statistics consult. -/
def mkRecordW (i : Nat) (prob conf : Dy) (t : Int) : AnalysisRecord :=
  { id := i, filename := "doc.txt", file_type := "txt", file_size := 100,
    text_length := 50, ai_probability := prob, confidence := conf,
    reasoning := some "sample", created_at := t,
    ip_address := none, visitor_id := none }

/-- Three analysis rows, one of them counted as AI: the percentages stored
for this table are binary64 values whose sum differs from 100. -/
def statsDb3 : List AnalysisRecord :=
  [mkRecordW 1 ⟨9, 10⟩ ⟨1, 2⟩ 0, mkRecordW 2 ⟨1, 10⟩ ⟨1, 2⟩ 0,
   mkRecordW 3 ⟨1, 10⟩ ⟨1, 2⟩ 0]

/-- Two analysis rows: one older than 30 days before time 0, one current. -/
def retentionDbW : List AnalysisRecord :=
  [mkRecordW 1 ⟨1, 2⟩ ⟨1, 2⟩ (-2600000), mkRecordW 2 ⟨1, 2⟩ ⟨1, 2⟩ 0]

/-- An 11 MB plain-text upload (11534336 bytes > 10 MB). -/
def bigFileW : UploadedFile := { name := "big.txt", type := "text/plain", size := 11534336 }

/-- A small plain-text upload. -/
def smallFileW : UploadedFile := { name := "essay.txt", type := "text/plain", size := 2048 }

/-- Extracted text comfortably past the 10-character minimum. -/
def longTextW : String := "This is a sample document body."

/-- A classification result. -/
def sampleDetectionW : DetectionResult :=
  { ai_probability := ⟨4, 5⟩, confidence := ⟨9, 10⟩, reasoning := "formal tone" }

/-- pdfplumber pages that strip to nothing. -/
def pdfPagesBlankW : List String := ["  ", ""]

/-- A PyPDF2 result carrying real text. -/
def pypdfOkW : Except String (List String) := .ok ["Hello PDF page", ""]

/-! ## Shared lemmas -/

theorem head?_dropWhile_not_ws (l : List Char) (c : Char)
    (h : (l.dropWhile pyWs).head? = some c) : pyWs c = false := by
  induction l with
  | nil => simp [List.dropWhile] at h
  | cons a t ih =>
      rw [List.dropWhile_cons] at h
      split at h
      · exact ih h
      · rename_i ha
        simp only [List.head?_cons, Option.some.injEq] at h
        subst h
        simpa using ha

theorem pyStripList_head_not_ws (l : List Char) (c : Char)
    (h : (pyStripList l).head? = some c) : pyWs c = false := by
  unfold pyStripList at h
  obtain ⟨t, ht⟩ := List.rdropWhile_prefix pyWs (l.dropWhile pyWs)
  have hne : List.rdropWhile pyWs (l.dropWhile pyWs) ≠ [] := by
    intro hnil; rw [hnil] at h; simp at h
  have h2 : (l.dropWhile pyWs).head? = some c := by
    rw [← ht, List.head?_append_of_ne_nil _ hne, h]
  exact head?_dropWhile_not_ws l c h2

theorem pyStripList_last_not_ws (l : List Char) (c : Char)
    (h : (pyStripList l).getLast? = some c) : pyWs c = false := by
  unfold pyStripList at h
  have hne : List.rdropWhile pyWs (l.dropWhile pyWs) ≠ [] := by
    intro hnil; rw [hnil] at h; simp at h
  have hlast := List.rdropWhile_last_not pyWs (l.dropWhile pyWs) hne
  rw [List.getLast?_eq_getLast _ hne] at h
  simp only [Option.some.injEq] at h
  rw [h] at hlast
  simpa using hlast

theorem noEdgeWs_pyStrip (s : String) : noEdgeWs (pyStrip s) :=
  ⟨fun c hc => pyStripList_head_not_ws s.data c hc,
   fun c hc => pyStripList_last_not_ws s.data c hc⟩

theorem pyStripList_eq_nil_iff (l : List Char) :
    pyStripList l = [] ↔ ∀ c ∈ l, pyWs c = true := by
  unfold pyStripList
  rw [List.rdropWhile_eq_nil_iff]
  constructor
  · intro h c hc
    rw [← List.takeWhile_append_dropWhile (p := pyWs) (l := l)] at hc
    rcases List.mem_append.mp hc with h1 | h2
    · exact List.mem_takeWhile_imp h1
    · exact h c h2
  · intro h c hc
    exact h c ((List.dropWhile_suffix pyWs).sublist.subset hc)

theorem pyStrip_eq_empty_iff (s : String) :
    pyStrip s = "" ↔ ∀ c ∈ s.data, pyWs c = true := by
  constructor
  · intro h
    exact (pyStripList_eq_nil_iff s.data).mp (congrArg String.data h)
  · intro h
    exact congrArg String.mk ((pyStripList_eq_nil_iff s.data).mpr h)

theorem concatPages_extends (init : String) (pages : List String) :
    init.data <+: (concatPages init pages).data := by
  induction pages generalizing init with
  | nil => exact List.prefix_refl _
  | cons p ps ih =>
      by_cases hp : p = ""
      · simpa [concatPages, List.foldl_cons, hp] using ih init
      · have step : concatPages init (p :: ps) = concatPages (init ++ p ++ "\n") ps := by
          simp [concatPages, List.foldl_cons, hp]
        rw [step]
        refine List.IsPrefix.trans ?_ (ih (init ++ p ++ "\n"))
        simp [List.prefix_append]

theorem pyStrip_concatPages_empty (init : String) (pages : List String)
    (h : pyStrip (concatPages init pages) = "") : pyStrip init = "" := by
  rw [pyStrip_eq_empty_iff] at h ⊢
  intro c hc
  exact h c ((concatPages_extends init pages).sublist.subset hc)

theorem pdfMethod2_ok_stripped (carried : String) (pypdf : Except String (List String))
    (s : String) (h : pdfMethod2 carried pypdf = .ok s) : s ≠ "" ∧ noEdgeWs s := by
  unfold pdfMethod2 at h
  cases pypdf with
  | error e => exact absurd h (by simp)
  | ok pages =>
      simp only at h
      split at h
      · exact absurd h (by simp)
      · rename_i hcond
        simp only [Except.ok.injEq] at h
        subst h
        exact ⟨hcond, noEdgeWs_pyStrip _⟩

theorem extract_text_from_pdf_ok_stripped (pp : List String) (perr : Option String)
    (pypdf : Except String (List String)) (s : String)
    (h : extract_text_from_pdf pp perr pypdf = .ok s) : s ≠ "" ∧ noEdgeWs s := by
  unfold extract_text_from_pdf at h
  cases perr with
  | some e => exact pdfMethod2_ok_stripped _ _ _ h
  | none =>
      simp only at h
      split at h
      · exact pdfMethod2_ok_stripped _ _ _ h
      · rename_i hcond
        simp only [Except.ok.injEq] at h
        subst h
        exact ⟨hcond, noEdgeWs_pyStrip _⟩

theorem extract_text_from_docx_ok_stripped (paragraphs : List String)
    (tables : List (List (List String))) (s : String)
    (h : extract_text_from_docx paragraphs tables = .ok s) : s ≠ "" ∧ noEdgeWs s := by
  unfold extract_text_from_docx at h
  dsimp only at h
  split at h
  · exact absurd h (by simp)
  · rename_i hcond
    simp only [Except.ok.injEq] at h
    subst h
    exact ⟨hcond, noEdgeWs_pyStrip _⟩

theorem extract_text_from_image_ok_stripped (pass1 pass2 : String) (s : String)
    (h : extract_text_from_image pass1 pass2 = .ok s) : s ≠ "" ∧ noEdgeWs s := by
  unfold extract_text_from_image at h
  dsimp only at h
  by_cases h1 : pyStrip pass1 = ""
  · rw [if_pos h1] at h
    split at h
    · exact absurd h (by simp)
    · rename_i hcond
      simp only [Except.ok.injEq] at h
      subst h
      exact ⟨hcond, noEdgeWs_pyStrip _⟩
  · rw [if_neg h1] at h
    split at h
    · exact absurd h (by simp)
    · rename_i hcond
      simp only [Except.ok.injEq] at h
      subst h
      exact ⟨hcond, noEdgeWs_pyStrip _⟩

theorem updateFirst_decompose {α : Type} (p : α → Bool) (f : α → α) (l : List α) (v : α)
    (h : l.find? p = some v) :
    ∃ l1 l2, l = l1 ++ v :: l2 ∧ updateFirst p f l = l1 ++ f v :: l2 := by
  induction l with
  | nil => simp [List.find?_nil] at h
  | cons x xs ih =>
      cases hx : p x with
      | false =>
          rw [List.find?_cons_of_neg _ (by simp [hx])] at h
          obtain ⟨l1, l2, he, hu⟩ := ih h
          exact ⟨x :: l1, l2, by rw [List.cons_append, ← he],
            by simp [updateFirst, hx, hu]⟩
      | true =>
          rw [List.find?_cons_of_pos _ hx] at h
          simp only [Option.some.injEq] at h
          subst h
          exact ⟨[], xs, rfl, by simp [updateFirst, hx]⟩

theorem find?_updateFirst {α : Type} (p : α → Bool) (f : α → α)
    (hp : ∀ x, p (f x) = p x) (l : List α) :
    (updateFirst p f l).find? p = (l.find? p).map f := by
  induction l with
  | nil => rfl
  | cons x xs ih =>
      cases hx : p x with
      | false =>
          simp only [updateFirst, hx, Bool.false_eq_true, if_false]
          rw [List.find?_cons_of_neg _ (by simp [hx]),
            List.find?_cons_of_neg _ (by simp [hx]), ih]
      | true =>
          simp only [updateFirst, hx, if_true]
          rw [List.find?_cons_of_pos _ (by rw [hp x]; exact hx),
            List.find?_cons_of_pos _ hx]
          rfl

/-! ## Claim C1 -/

/-- C1: `credits_remaining` never becomes negative.  `use_credit` on a
visitor id with no row, or on a row with 0 credits, returns failure and
leaves the table unchanged; it succeeds only when the row has
`credits_remaining > 0` beforehand, and then decrements that row's
credits by exactly 1. -/
theorem use_credit_correct (now : Int) (visitors : List VisitorCredit) (vid : String) :
    ((∀ v ∈ visitors, 0 ≤ v.credits_remaining) →
      ∀ v ∈ (use_credit now visitors vid).2, 0 ≤ v.credits_remaining) ∧
    (visitors.find? (fun w => w.visitor_id == vid) = none →
      use_credit now visitors vid = (false, visitors)) ∧
    (∀ v, visitors.find? (fun w => w.visitor_id == vid) = some v →
      v.credits_remaining = 0 → use_credit now visitors vid = (false, visitors)) ∧
    ((use_credit now visitors vid).1 = true →
      ∃ v, visitors.find? (fun w => w.visitor_id == vid) = some v ∧
        0 < v.credits_remaining ∧
        ((use_credit now visitors vid).2.find? (fun w => w.visitor_id == vid)).map
          (fun w => w.credits_remaining) = some (v.credits_remaining - 1)) := by
  refine ⟨?_, ?_, ?_, ?_⟩
  · intro hnn v hv
    cases hf : visitors.find? (fun w => w.visitor_id == vid) with
    | none =>
        have hrun : use_credit now visitors vid = (false, visitors) := by
          unfold use_credit; rw [hf]
        rw [hrun] at hv
        exact hnn v hv
    | some u =>
        by_cases hc : 0 < u.credits_remaining
        · have hrun : use_credit now visitors vid =
            (true, updateFirst (fun w => w.visitor_id == vid)
              (fun w => { w with credits_remaining := w.credits_remaining - 1,
                                 last_activity := now }) visitors) := by
            unfold use_credit; rw [hf]; dsimp only; rw [if_pos hc]
          rw [hrun] at hv
          obtain ⟨l1, l2, he, hu⟩ := updateFirst_decompose
            (fun w => w.visitor_id == vid)
            (fun w => { w with credits_remaining := w.credits_remaining - 1,
                               last_activity := now }) visitors u hf
          rw [hu] at hv
          rcases List.mem_append.mp hv with h1 | h2
          · have hvmem : v ∈ visitors := by
              rw [he]
              exact List.mem_append.mpr (Or.inl h1)
            exact hnn v hvmem
          · rcases List.mem_cons.mp h2 with h3 | h4
            · subst h3
              show (0 : Int) ≤ u.credits_remaining - 1
              omega
            · have hvmem : v ∈ visitors := by
                rw [he]
                exact List.mem_append.mpr (Or.inr (List.mem_cons.mpr (Or.inr h4)))
              exact hnn v hvmem
        · have hrun : use_credit now visitors vid = (false, visitors) := by
            unfold use_credit; rw [hf]; dsimp only; rw [if_neg hc]
          rw [hrun] at hv
          exact hnn v hv
  · intro h
    unfold use_credit
    rw [h]
  · intro v hf hc0
    unfold use_credit
    rw [hf]
    dsimp only
    rw [hc0]
    norm_num
  · intro h1
    cases hf : visitors.find? (fun w => w.visitor_id == vid) with
    | none =>
        have hrun : use_credit now visitors vid = (false, visitors) := by
          unfold use_credit; rw [hf]
        rw [hrun] at h1
        simp at h1
    | some u =>
        by_cases hc : 0 < u.credits_remaining
        · have hrun : use_credit now visitors vid =
            (true, updateFirst (fun w => w.visitor_id == vid)
              (fun w => { w with credits_remaining := w.credits_remaining - 1,
                                 last_activity := now }) visitors) := by
            unfold use_credit; rw [hf]; dsimp only; rw [if_pos hc]
          refine ⟨u, rfl, hc, ?_⟩
          rw [hrun]
          rw [show ((true, updateFirst (fun w => w.visitor_id == vid)
              (fun w => { w with credits_remaining := w.credits_remaining - 1,
                                 last_activity := now }) visitors) :
              Bool × List VisitorCredit).2 = updateFirst (fun w => w.visitor_id == vid)
              (fun w => { w with credits_remaining := w.credits_remaining - 1,
                                 last_activity := now }) visitors from rfl]
          rw [find?_updateFirst (fun w => w.visitor_id == vid)
            (fun w => { w with credits_remaining := w.credits_remaining - 1,
                               last_activity := now }) (fun x => rfl) visitors, hf]
          rfl
        · have hrun : use_credit now visitors vid = (false, visitors) := by
            unfold use_credit; rw [hf]; dsimp only; rw [if_neg hc]
          rw [hrun] at h1
          simp at h1

/-- C1 witness: on the sample table, spending a credit of the visitor whose
row holds 0 credits fails and leaves the table unchanged. -/
theorem use_credit_correct_witness : use_credit 500 visitorsW "bbbb" = (false, visitorsW) :=
  (use_credit_correct 500 visitorsW "bbbb").2.2.1 visitorNoCredits (by decide) (by decide)

/-! ## Claim C4 -/

/-- C4: plain-text extraction never fails: it tries strict UTF-8 first and
returns its result when it succeeds, otherwise it falls back to Latin-1
(total on arbitrary bytes), so some string is always returned. -/
theorem extract_text_from_txt_total (content : List Nat) :
    (extract_text_from_txt content).isSome = true ∧
    (∀ cps, utf8Decode content = some cps →
      extract_text_from_txt content = some (codepointsToString cps)) ∧
    (utf8Decode content = none →
      extract_text_from_txt content = some (codepointsToString content)) := by
  refine ⟨?_, ?_, ?_⟩
  · unfold extract_text_from_txt
    cases utf8Decode content <;> simp [latin1Decode]
  · intro cps hc
    unfold extract_text_from_txt
    rw [hc]
  · intro hc
    unfold extract_text_from_txt
    rw [hc]
    rfl

/-- C4 witness: the single byte 255 is not valid UTF-8, and extraction
still returns the Latin-1 decoding. -/
theorem extract_text_from_txt_total_witness :
    extract_text_from_txt [255] = some (codepointsToString [255]) :=
  (extract_text_from_txt_total [255]).2.2 (by rfl)

/-! ## Claim C6 -/

/-- C6: `delete_old_records` removes exactly the rows whose `created_at` is
strictly older than now minus `daysOld` days, keeps every other row,
returns the number of rows removed, and a second run on the result removes
nothing. -/
theorem delete_old_records_exact (now daysOld : Int) (records : List AnalysisRecord) :
    (∀ r, r ∈ (delete_old_records now daysOld records).2 ↔
      (r ∈ records ∧ ¬(r.created_at < now - daysOld * 86400))) ∧
    ((delete_old_records now daysOld records).1 +
      (delete_old_records now daysOld records).2.length = records.length) ∧
    ((delete_old_records now daysOld (delete_old_records now daysOld records).2).1 = 0) := by
  refine ⟨?_, ?_, ?_⟩
  · intro r
    unfold delete_old_records
    simp [List.mem_filter]
  · unfold delete_old_records
    dsimp only
    rw [← List.countP_eq_length_filter]
    have h := List.length_eq_countP_add_countP
      (p := fun r : AnalysisRecord => decide (r.created_at < now - daysOld * 86400))
      (l := records)
    simp only [decide_not, decide_eq_true_eq] at h ⊢
    omega
  · unfold delete_old_records
    dsimp only
    rw [List.countP_eq_zero]
    intro a ha
    have := (List.mem_filter.mp ha).2
    simpa using this

/-- C6 witness: on the two-row sample table at time 0 with the 30-day
threshold, the deleted count plus the surviving rows account for the whole
table, and an immediate second call deletes nothing. -/
theorem delete_old_records_exact_witness :
    ((delete_old_records 0 30 retentionDbW).1 +
      (delete_old_records 0 30 retentionDbW).2.length = retentionDbW.length) ∧
    ((delete_old_records 0 30 (delete_old_records 0 30 retentionDbW).2).1 = 0) ∧
    (mkRecordW 2 ⟨1, 2⟩ ⟨1, 2⟩ 0 ∈ (delete_old_records 0 30 retentionDbW).2 ↔
      (mkRecordW 2 ⟨1, 2⟩ ⟨1, 2⟩ 0 ∈ retentionDbW ∧
        ¬((mkRecordW 2 ⟨1, 2⟩ ⟨1, 2⟩ 0).created_at < 0 - 30 * 86400))) :=
  ⟨(delete_old_records_exact 0 30 retentionDbW).2.1,
   (delete_old_records_exact 0 30 retentionDbW).2.2,
   (delete_old_records_exact 0 30 retentionDbW).1 _⟩

/-! ## Claim C2 -/

/-- C2: PDF extraction falls back to the page-text method whenever the
layout-aware method fails or yields only whitespace; when both methods
yield only whitespace the result is an error; and a successful result is
never empty or whitespace-only. -/
theorem extract_text_from_pdf_fallback (pp : List String) (perr : Option String)
    (pypdf : Except String (List String)) :
    (∀ s, extract_text_from_pdf pp perr pypdf = .ok s → s ≠ "" ∧ noEdgeWs s) ∧
    (pyStrip (concatPages "" pp) = "" →
      extract_text_from_pdf pp none pypdf = pdfMethod2 (concatPages "" pp) pypdf) ∧
    (∀ e, extract_text_from_pdf pp (some e) pypdf = pdfMethod2 (concatPages "" pp) pypdf) ∧
    (∀ pages2, pypdf = .ok pages2 →
      pyStrip (concatPages (concatPages "" pp) pages2) = "" →
      extract_text_from_pdf pp perr pypdf =
        .error ("PDF processing error: Both PDF extraction methods failed: " ++
          "No text could be extracted from PDF")) := by
  refine ⟨?_, ?_, ?_, ?_⟩
  · intro s h
    exact extract_text_from_pdf_ok_stripped pp perr pypdf s h
  · intro h
    unfold extract_text_from_pdf
    dsimp only
    rw [if_pos h]
  · intro e
    rfl
  · intro pages2 hpy hstrip
    subst hpy
    cases perr with
    | some e =>
        show pdfMethod2 (concatPages "" pp) (.ok pages2) = _
        unfold pdfMethod2
        dsimp only
        rw [if_pos hstrip]
    | none =>
        have ht : pyStrip (concatPages "" pp) = "" :=
          pyStrip_concatPages_empty _ pages2 hstrip
        unfold extract_text_from_pdf
        dsimp only
        rw [if_pos ht]
        unfold pdfMethod2
        dsimp only
        rw [if_pos hstrip]

/-- C2 witness: blank pdfplumber pages route into the PyPDF2 fallback, which
recovers the page text. -/
theorem extract_text_from_pdf_fallback_witness :
    pyStrip (concatPages "" pdfPagesBlankW) = "" ∧
    extract_text_from_pdf pdfPagesBlankW none pypdfOkW =
      pdfMethod2 (concatPages "" pdfPagesBlankW) pypdfOkW :=
  ⟨by decide,
   (extract_text_from_pdf_fallback pdfPagesBlankW none pypdfOkW).2.1 (by decide)⟩

/-! ## Claim C5 -/

/-- C5 counterexample: plain-text extraction succeeds on the bytes of
a space, h, i, space and returns the text verbatim, with its leading and
trailing whitespace kept. -/
theorem extract_text_from_txt_not_stripped :
    extract_text_from_txt [32, 104, 105, 32] = some " hi " ∧
    pyStrip " hi " ≠ " hi " ∧
    (" hi ").data.head? = some ' ' ∧ pyWs ' ' = true := by decide

/-- C5 (amended): every successful result of the PDF, Word and image
extractors is nonempty and carries no leading or trailing whitespace; the
plain-text extractor is exempt, as it returns the decoded bytes verbatim. -/
theorem extractors_ok_stripped (pp : List String) (perr : Option String)
    (pypdf : Except String (List String)) (paragraphs : List String)
    (tables : List (List (List String))) (pass1 pass2 : String) :
    (∀ s, extract_text_from_pdf pp perr pypdf = .ok s → s ≠ "" ∧ noEdgeWs s) ∧
    (∀ s, extract_text_from_docx paragraphs tables = .ok s → s ≠ "" ∧ noEdgeWs s) ∧
    (∀ s, extract_text_from_image pass1 pass2 = .ok s → s ≠ "" ∧ noEdgeWs s) :=
  ⟨fun s h => extract_text_from_pdf_ok_stripped pp perr pypdf s h,
   fun s h => extract_text_from_docx_ok_stripped paragraphs tables s h,
   fun s h => extract_text_from_image_ok_stripped pass1 pass2 s h⟩

/-- C5 witness: the Word extractor on one padded paragraph returns the
stripped text, which is nonempty and has clean edges. -/
theorem extractors_ok_stripped_witness : "Hello Doc" ≠ "" ∧ noEdgeWs "Hello Doc" :=
  (extractors_ok_stripped [] none (.ok []) ["  Hello Doc  "] [] "" "").2.1
    "Hello Doc" (by rfl)

/-! ## Claim C3 -/

/-- C3 counterexample: a file declaring the specific MIME type
`application/pdf` but named `doc.txt` is routed to the plain-text
extractor by its extension, while the MIME-first rule of the claim would
route it to the PDF extractor. -/
theorem extract_text_route_extension_overrides_mime :
    extract_text_route "application/pdf" "doc.txt" = .ok .txt ∧
    mimeFirstRoute "application/pdf" "doc.txt" = .ok .pdf ∧
    Route.txt ≠ Route.pdf :=
  ⟨by rfl, by rfl, by decide⟩

/-- C3 (amended): the dispatcher tries its four branches in the fixed order
text, PDF, Word, image, each branch accepting on its MIME test or its
extension test, so an extension match in an earlier branch overrides a MIME
match in a later one.  When the file name carries no supported extension
the declared MIME type alone decides, and when the MIME type matches no
supported pattern the extension alone decides; a file matching neither is
rejected as unsupported. -/
theorem extract_text_route_amended (fileType fileName : String) :
    (extRouteOf (pyLower fileName) = none →
      extract_text_route fileType fileName =
        (match mimeRouteOf (pyLower fileType) with
         | some r => .ok r
         | none => .error ("Unsupported file type: " ++ pyLower fileType))) ∧
    (mimeRouteOf (pyLower fileType) = none →
      extract_text_route fileType fileName =
        (match extRouteOf (pyLower fileName) with
         | some r => .ok r
         | none => .error ("Unsupported file type: " ++ pyLower fileType))) := by
  constructor
  · intro h
    have h1 : pyEndsWith (pyLower fileName) ".txt" = false := by
      by_contra hx
      rw [Bool.not_eq_false] at hx
      simp [extRouteOf, hx] at h
    have h2 : pyEndsWith (pyLower fileName) ".pdf" = false := by
      by_contra hx
      rw [Bool.not_eq_false] at hx
      simp [extRouteOf, h1, hx] at h
    have h3 : pyEndsWith (pyLower fileName) ".docx" = false := by
      by_contra hx
      rw [Bool.not_eq_false] at hx
      simp [extRouteOf, h1, h2, hx] at h
    have h4 : pyEndsWith (pyLower fileName) ".jpg" = false := by
      by_contra hx
      rw [Bool.not_eq_false] at hx
      simp [extRouteOf, h1, h2, h3, hx] at h
    have h5 : pyEndsWith (pyLower fileName) ".jpeg" = false := by
      by_contra hx
      rw [Bool.not_eq_false] at hx
      simp [extRouteOf, h1, h2, h3, h4, hx] at h
    have h6 : pyEndsWith (pyLower fileName) ".png" = false := by
      by_contra hx
      rw [Bool.not_eq_false] at hx
      simp [extRouteOf, h1, h2, h3, h4, h5, hx] at h
    unfold extract_text_route mimeRouteOf
    by_cases m1 : pyLower fileType == "text/plain" <;>
      by_cases m2 : pyLower fileType == "application/pdf" <;>
        by_cases m3 : pyLower fileType == docxMime <;>
          by_cases m4 : pyStartsWith (pyLower fileType) "image/" <;>
            simp [h1, h2, h3, h4, h5, h6, m1, m2, m3, m4]
  · intro h
    have m1 : (pyLower fileType == "text/plain") = false := by
      by_contra hx
      rw [Bool.not_eq_false] at hx
      simp [mimeRouteOf, hx] at h
    have m2 : (pyLower fileType == "application/pdf") = false := by
      by_contra hx
      rw [Bool.not_eq_false] at hx
      simp [mimeRouteOf, m1, hx] at h
    have m3 : (pyLower fileType == docxMime) = false := by
      by_contra hx
      rw [Bool.not_eq_false] at hx
      simp [mimeRouteOf, m1, m2, hx] at h
    have m4 : pyStartsWith (pyLower fileType) "image/" = false := by
      by_contra hx
      rw [Bool.not_eq_false] at hx
      simp [mimeRouteOf, m1, m2, m3, hx] at h
    unfold extract_text_route extRouteOf
    by_cases e1 : pyEndsWith (pyLower fileName) ".txt" <;>
      by_cases e2 : pyEndsWith (pyLower fileName) ".pdf" <;>
        by_cases e3 : pyEndsWith (pyLower fileName) ".docx" <;>
          by_cases e4 : pyEndsWith (pyLower fileName) ".jpg" <;>
            by_cases e5 : pyEndsWith (pyLower fileName) ".jpeg" <;>
              by_cases e6 : pyEndsWith (pyLower fileName) ".png" <;>
                simp [m1, m2, m3, m4, e1, e2, e3, e4, e5, e6]

/-- C3 witness: with a specific MIME type and no supported extension, the
dispatcher follows the declared MIME type. -/
theorem extract_text_route_amended_witness :
    extract_text_route "application/pdf" "document" =
      (match mimeRouteOf (pyLower "application/pdf") with
       | some r => .ok r
       | none => .error ("Unsupported file type: " ++ pyLower "application/pdf")) :=
  (extract_text_route_amended "application/pdf" "document").1 (by decide)

/-! ## Claim C7 -/

/-- C7 counterexample: on a table of three rows, one detected as AI, the
stored percentages are the binary64 values of 1/3*100 and 2/3*100, and
their sum is not 100. -/
theorem stats_percentages_sum_ne_100 :
    dyToRat (get_analysis_stats statsDb3).ai_percentage +
    dyToRat (get_analysis_stats statsDb3).human_percentage ≠ 100 := by
  have h1 : (get_analysis_stats statsDb3).ai_percentage =
      ⟨4691249611844266, 140737488355328⟩ := by decide
  have h2 : (get_analysis_stats statsDb3).human_percentage =
      ⟨4691249611844266, 70368744177664⟩ := by decide
  rw [h1, h2]
  simp only [dyToRat]
  norm_num

/-- C7 (amended): both percentages are exactly 0 when the table is empty
(the guarded branch, no division happens), and with exact rational
arithmetic the two percentages sum to 100 whenever the table is nonempty;
the stored binary64 values may miss 100 by a rounding error. -/
theorem stats_percentages (records : List AnalysisRecord) :
    (records.length = 0 →
      (get_analysis_stats records).ai_percentage = dyOfInt 0 ∧
      (get_analysis_stats records).human_percentage = dyOfInt 0) ∧
    (0 < records.length →
      specAiPercentageExact records + specHumanPercentageExact records = 100) := by
  constructor
  · intro h
    have hnil : records = [] := List.length_eq_zero.mp h
    subst hnil
    exact ⟨rfl, rfl⟩
  · intro h
    unfold specAiPercentageExact specHumanPercentageExact
    have hle : records.countP (fun r => dyLe ⟨1, 2⟩ r.ai_probability) ≤ records.length :=
      List.countP_le_length _
    have hn : ((records.length : ℚ)) ≠ 0 := by
      have : (0 : ℚ) < (records.length : ℚ) := by exact_mod_cast h
      exact ne_of_gt this
    rw [Nat.cast_sub hle]
    field_simp
    ring

/-- C7 witness: the empty table yields two zero percentages, and the exact
percentages of the three-row sample sum to 100. -/
theorem stats_percentages_witness :
    ((get_analysis_stats ([] : List AnalysisRecord)).ai_percentage = dyOfInt 0 ∧
     (get_analysis_stats ([] : List AnalysisRecord)).human_percentage = dyOfInt 0) ∧
    specAiPercentageExact statsDb3 + specHumanPercentageExact statsDb3 = 100 :=
  ⟨(stats_percentages []).1 rfl, (stats_percentages statsDb3).2 (by decide)⟩

/-! ## Claim C8 -/

/-- C8: `validate_file` rejects a file larger than 10 MB, but the analyze
flow of app.py never calls it: the same 11 MB upload flows through
extraction and classification and is persisted. -/
theorem size_cap_not_enforced :
    exceptOk (validate_file bigFileW 10) = false ∧
    (analyze_document_flow false 0 1 bigFileW (.ok longTextW)
      (.ok sampleDetectionW) []).1 = .analyzedSaved 1 ∧
    ((analyze_document_flow false 0 1 bigFileW (.ok longTextW)
      (.ok sampleDetectionW) []).2).length = 1 :=
  ⟨by decide, by rfl, by rfl⟩

/-! ## Claim C9 -/

/-- C9 counterexample: in demo mode a successful extraction and a
successful classification end in a success outcome with no record
persisted. -/
theorem analyze_flow_demo_skips_save :
    analyze_document_flow true 1000 1 smallFileW (.ok longTextW)
      (.ok sampleDetectionW) [] = (.analyzedDemo, []) := by rfl

/-- C9 (amended): outside demo mode, a successful extraction of at least 10
stripped characters followed by a successful classification appends exactly
one record carrying the file's metadata and the classification's
probability, confidence and reasoning; in demo mode the record table is
never touched. -/
theorem analyze_flow_saves_iff_live (now : Int) (nextId : Nat) (f : UploadedFile)
    (text : String) (d : DetectionResult) (records : List AnalysisRecord) :
    (10 ≤ (pyStrip text).data.length →
      analyze_document_flow false now nextId f (.ok text) (.ok d) records =
        (.analyzedSaved nextId, records ++
          [{ id := nextId, filename := f.name, file_type := fileExtension f.name,
             file_size := f.size, text_length := text.data.length,
             ai_probability := d.ai_probability, confidence := d.confidence,
             reasoning := some d.reasoning, created_at := now,
             ip_address := none, visitor_id := none }])) ∧
    (∀ er det, (analyze_document_flow true now nextId f er det records).2 = records) := by
  constructor
  · intro h
    unfold analyze_document_flow
    dsimp only
    rw [if_neg (by omega)]
    rfl
  · intro er det
    unfold analyze_document_flow
    cases er with
    | error e => rfl
    | ok text2 =>
        dsimp only
        by_cases ht : (pyStrip text2).data.length < 10
        · rw [if_pos ht]
        · rw [if_neg ht]
          cases det with
          | error e => rfl
          | ok d2 => rfl

/-- C9 witness: a concrete live-mode run appends exactly the expected
record. -/
theorem analyze_flow_saves_iff_live_witness :
    analyze_document_flow false 1000 7 smallFileW (.ok longTextW)
      (.ok sampleDetectionW) [] =
      (.analyzedSaved 7,
       [{ id := 7, filename := smallFileW.name,
          file_type := fileExtension smallFileW.name, file_size := smallFileW.size,
          text_length := longTextW.data.length,
          ai_probability := sampleDetectionW.ai_probability,
          confidence := sampleDetectionW.confidence,
          reasoning := some sampleDetectionW.reasoning, created_at := 1000,
          ip_address := none, visitor_id := none }]) :=
  (analyze_flow_saves_iff_live 1000 7 smallFileW longTextW sampleDetectionW []).1
    (by decide)

/-! ## Claim C10 -/

theorem toBytesBE_length (k n : Nat) : (toBytesBE k n).length = k := by
  induction k generalizing n with
  | zero => rfl
  | succ k ih => simp [toBytesBE, ih]

theorem sha256_length (msg : List Nat) : (sha256 msg).length = 32 := by
  unfold sha256
  dsimp only
  simp [List.flatMap_cons, List.flatMap_nil, toBytesBE_length]

theorem hexDigest_length (bytes : List Nat) :
    (hexDigest bytes).data.length = 2 * bytes.length := by
  show (bytes.flatMap (fun b => [hexChar (b / 16), hexChar (b % 16)])).length =
    2 * bytes.length
  induction bytes with
  | nil => rfl
  | cons b t ih =>
      simp only [List.flatMap_cons, List.length_append, List.length_cons,
        List.length_nil, ih, List.length_cons]
      omega

set_option maxRecDepth 40000 in
/-- SHA-256 sanity anchor: the model reproduces the standard digest of the
three-byte message abc. -/
theorem sha256_abc_testvector :
    hexDigest (sha256 (utf8Encode "abc")) =
      "ba7816bf8f01cfea414140de5dae2223b00361a396177a9cb410ff61f20015ad" := by rfl

/-- C10: `generate_visitor_id` is a total function returning exactly the
first 32 hexadecimal characters of the SHA-256 digest of the string
ip_address, a pipe, browser_fingerprint; in particular the result is always
32 characters, half the width of the 64-character column. -/
theorem generate_visitor_id_spec (ip_address browser_fingerprint : String) :
    generate_visitor_id ip_address browser_fingerprint =
      ⟨((hexDigest (sha256 (utf8Encode (ip_address ++ "|" ++ browser_fingerprint)))).data.take 32)⟩ ∧
    (generate_visitor_id ip_address browser_fingerprint).data.length = 32 := by
  refine ⟨rfl, ?_⟩
  show ((hexDigest (sha256 (utf8Encode (ip_address ++ "|" ++ browser_fingerprint)))).data.take 32).length = 32
  rw [List.length_take, hexDigest_length, sha256_length]
  omega
